import Mathlib

/-!
Shallow embedding of the crash-signal classification core of the
sentry-crash-report repository: the advanced surge (spike) detector of
sentry_daily_crash_report.py, the alert-level ladders of
release_monitoring/config.py, the level aggregation of
release_monitoring/release_analyzer.py, and the new-issue lifecycle
classification of weekly_crash_report.py.

Modelling conventions: Python ints are Int, Python floats are Rat
(float values that may be +infinity are PyFloat), Python dicts are
association lists in insertion order, Python list.sort is a stable sort
with respect to a total preorder (List.insertionSort computes the same
list as any stable sort), and a raised SystemExit is Except.error.
math.sqrt has no exact rational counterpart, so every definition that
needs it takes the square-root function as an explicit parameter;
theorems hold for every such function, and concrete evaluations
instantiate it with sqrtQ, which agrees with math.sqrt on perfect
squares (the only inputs used in concrete evaluations).
-/

unseal Rat.mul Rat.inv Rat.add Rat.sub Rat.ofScientific

namespace SentryReport

/-! ### Constants of sentry_daily_crash_report.py (lines 21-29) -/

def SURGE_MIN_COUNT : ℤ := 30
def SURGE_GROWTH_MULTIPLIER : ℚ := 2
def SURGE_Z_THRESHOLD : ℚ := 2
def SURGE_MAD_THRESHOLD : ℚ := 3.5
def SURGE_MIN_NEW_BURST : ℤ := 15
def BASELINE_DAYS : ℕ := 7
def SURGE_MAX_RESULTS : ℕ := 50
def SURGE_ABSOLUTE_MIN : ℤ := SURGE_MIN_COUNT

/-- The guard 1e-9 added to denominators inside detect_surge_issues_advanced. -/
def eps : ℚ := 1e-9

/-! ### Statistics helpers (mean_std, median, mad) -/

/-- mean_std of sentry_daily_crash_report.py.  math.sqrt is the parameter
sqrt.  Empty input returns (0, 0); otherwise the mean and the square root
of the population variance (the source divides by max(len(values), 1)). -/
def mean_std (sqrt : ℚ → ℚ) (values : List ℚ) : ℚ × ℚ :=
  if values = [] then (0, 0)
  else
    let m : ℚ := values.sum / (values.length : ℚ)
    let var : ℚ := (values.map (fun v => (v - m) ^ 2)).sum / ((max values.length 1 : ℕ) : ℚ)
    (m, sqrt var)

/-- median of sentry_daily_crash_report.py: 0 on the empty list, the middle
element of the sorted list for odd length, the average of the two middle
elements for even length.  The source sorts with sorted(values); Python's
sort is stable, and on a linear order it computes the unique sorted
permutation, which insertionSort also computes. -/
def median (values : List ℚ) : ℚ :=
  if values = [] then 0
  else
    let s := values.insertionSort (· ≤ ·)
    let n := s.length
    let mid := n / 2
    if n % 2 = 1 then s.getD mid 0
    else (s.getD (mid - 1) 0 + s.getD mid 0) / 2

/-- mad of sentry_daily_crash_report.py: the median of absolute deviations
from med.  The source lets med default to median(values), but both call
sites pass it explicitly, so the embedding takes it as an argument. -/
def mad (values : List ℚ) (med : ℚ) : ℚ :=
  if values = [] then 0
  else median (values.map (fun v => |v - med|))

/-! ### Python float values that may be +infinity -/

/-- A Python float arising in the z-score / MAD-score computation: either a
finite rational or float("inf"). -/
inductive PyFloat where
  | fin (q : ℚ)
  | inf
deriving DecidableEq

/-- Comparison x >= c for a possibly-infinite float x against a finite
threshold c: float("inf") >= c is True in Python. -/
def PyFloat.geQ : PyFloat → ℚ → Bool
  | .inf, _ => true
  | .fin q, c => decide (c ≤ q)

/-- Python round(x, 2) (banker's rounding: ties go to the even integer). -/
def round_half_even (x : ℚ) : ℤ :=
  if x - ⌊x⌋ < 1 / 2 then ⌊x⌋
  else if 1 / 2 < x - ⌊x⌋ then ⌊x⌋ + 1
  else if ⌊x⌋ % 2 = 0 then ⌊x⌋ else ⌊x⌋ + 1

/-- round(x, 2) from the result formatting of detect_surge_issues_advanced. -/
def round2 (x : ℚ) : ℚ := ((round_half_even (x * 100) : ℤ) : ℚ) / 100

/-! ### Per-issue statistics and the four spike sub-rules -/

/-- prev_maps[i].get(iid, {}).get("count") or 0 — the count recorded for
issue iid in one baseline day's map, defaulting to 0 when absent. -/
def lookup_count (pm : List (String × ℤ)) (iid : String) : ℤ :=
  ((pm.find? (fun p => p.1 == iid)).map (fun p => p.2)).getD 0

/-- One row of the target-day map built by issue_counts_map_for_day:
\x7b"count": int, "title": str\x7d. -/
structure TodayInfo where
  count : ℤ
  title : String
deriving DecidableEq

/-- The per-issue quantities computed in the body of the loop of
detect_surge_issues_advanced (lines 325-339). -/
structure IssueStats where
  cur : ℤ
  dby : ℤ
  baseline_counts : List ℤ
  mean_val : ℚ
  std_val : ℚ
  med_val : ℚ
  mad_val : ℚ
deriving DecidableEq

/-- Assembles the per-issue statistics: dby is the day-before count (0 when
there are no baseline maps), baseline_counts the per-day counts, and the
four derived statistics come from mean_std, median and mad. -/
def issue_stats (sqrt : ℚ → ℚ) (prev_maps : List (List (String × ℤ)))
    (iid : String) (cur : ℤ) : IssueStats :=
  let dby : ℤ := match prev_maps with
    | [] => 0
    | pm :: _ => lookup_count pm iid
  let baseline_counts := prev_maps.map (fun pm => lookup_count pm iid)
  let bq := baseline_counts.map (fun v => (v : ℚ))
  let ms := mean_std sqrt bq
  { cur := cur, dby := dby, baseline_counts := baseline_counts,
    mean_val := ms.1, std_val := ms.2,
    med_val := median bq, mad_val := mad bq (median bq) }

/-- z = (cur - mean) / (std + eps) if std > 0 else (inf if cur > mean else 0). -/
def compute_z (cur : ℤ) (mean_val std_val : ℚ) : PyFloat :=
  if 0 < std_val then .fin (((cur : ℚ) - mean_val) / (std_val + eps))
  else if mean_val < (cur : ℚ) then .inf else .fin 0

/-- mad_score = (cur - med) / (1.4826 * mad + eps) if mad > 0
else (inf if cur > med else 0). -/
def compute_mad_score (cur : ℤ) (med_val mad_val : ℚ) : PyFloat :=
  if 0 < mad_val then .fin (((cur : ℚ) - med_val) / (1.4826 * mad_val + eps))
  else if med_val < (cur : ℚ) then .inf else .fin 0

/-- growth = cur / max(dby, 1). -/
def growth_value (cur dby : ℤ) : ℚ := (cur : ℚ) / ((max dby 1 : ℤ) : ℚ)

/-- conditions["growth"]: growth >= SURGE_GROWTH_MULTIPLIER. -/
def growth_cond (st : IssueStats) : Bool :=
  decide (SURGE_GROWTH_MULTIPLIER ≤ growth_value st.cur st.dby)

/-- conditions["zscore"]: z >= SURGE_Z_THRESHOLD. -/
def zscore_cond (st : IssueStats) : Bool :=
  (compute_z st.cur st.mean_val st.std_val).geQ SURGE_Z_THRESHOLD

/-- conditions["madscore"]: mad_score >= SURGE_MAD_THRESHOLD. -/
def madscore_cond (st : IssueStats) : Bool :=
  (compute_mad_score st.cur st.med_val st.mad_val).geQ SURGE_MAD_THRESHOLD

/-- conditions["new_burst"]: all baseline counts are zero and
cur >= max(SURGE_MIN_NEW_BURST, SURGE_ABSOLUTE_MIN). -/
def new_burst_cond (st : IssueStats) : Bool :=
  st.baseline_counts.all (fun v => v == 0)
    && decide (max SURGE_MIN_NEW_BURST SURGE_ABSOLUTE_MIN ≤ st.cur)

/-- The conditions dict of detect_surge_issues_advanced, in insertion
order: growth, zscore, madscore, new_burst. -/
def surge_conditions (st : IssueStats) : List (String × Bool) :=
  [("growth", growth_cond st), ("zscore", zscore_cond st),
   ("madscore", madscore_cond st), ("new_burst", new_burst_cond st)]

/-! ### Surge results, the display sort, and the detector pipeline -/

/-- One element of the results list of detect_surge_issues_advanced
(lines 349-365).  zscore and mad_score are None when the float was
infinite (math.isinf), otherwise the value rounded to two decimals. -/
structure SurgeResult where
  issue_id : String
  title : String
  event_count : ℤ
  link : String
  dby_count : ℤ
  growth_multiplier : ℚ
  zscore : Option ℚ
  mad_score : Option ℚ
  baseline_mean : ℚ
  baseline_std : ℚ
  baseline_median : ℚ
  baseline_mad : ℚ
  baseline_counts : List ℤ
  reasons : List String
deriving DecidableEq

/-- The dict appended to results for a surging issue (lines 349-365). -/
def surge_result_of (sqrt : ℚ → ℚ) (org : String)
    (prev_maps : List (List (String × ℤ))) (iid : String) (info : TodayInfo) :
    SurgeResult :=
  let st := issue_stats sqrt prev_maps iid info.count
  { issue_id := iid, title := info.title, event_count := st.cur,
    link := "https://sentry.io/organizations/" ++ org ++ "/issues/" ++ iid ++ "/",
    dby_count := st.dby,
    growth_multiplier := round2 (growth_value st.cur st.dby),
    zscore := match compute_z st.cur st.mean_val st.std_val with
      | .inf => none | .fin q => some (round2 q),
    mad_score := match compute_mad_score st.cur st.med_val st.mad_val with
      | .inf => none | .fin q => some (round2 q),
    baseline_mean := round2 st.mean_val,
    baseline_std := round2 st.std_val,
    baseline_median := round2 st.med_val,
    baseline_mad := round2 st.mad_val,
    baseline_counts := st.baseline_counts,
    reasons := ((surge_conditions st).filter (fun c => c.2)).map (fun c => c.1) }

/-- The per-issue body of the loop of detect_surge_issues_advanced: skip
the issue when cur < SURGE_ABSOLUTE_MIN, compute the statistics and the
four conditions, and emit a result exactly when some condition holds. -/
def process_issue (sqrt : ℚ → ℚ) (org : String)
    (prev_maps : List (List (String × ℤ))) (iid : String) (info : TodayInfo) :
    Option SurgeResult :=
  if info.count < SURGE_ABSOLUTE_MIN then none
  else if (surge_conditions (issue_stats sqrt prev_maps iid info.count)).any (fun c => c.2) then
    some (surge_result_of sqrt org prev_maps iid info)
  else none

/-- The sort key of line 371: (event_count, zscore or 0, mad_score or 0,
growth_multiplier), where a None score contributes 0. -/
def sort_key (r : SurgeResult) : ℚ × ℚ × ℚ × ℚ :=
  ((r.event_count : ℚ), r.zscore.getD 0, r.mad_score.getD 0, r.growth_multiplier)

/-- Lexicographic <= on a pair whose first component is a rational,
mirroring Python tuple comparison. -/
def lexQ (le : β → β → Prop) (a b : ℚ × β) : Prop :=
  a.1 < b.1 ∨ (a.1 = b.1 ∧ le a.2 b.2)

instance (le : β → β → Prop) [DecidableRel le] : DecidableRel (lexQ le) :=
  fun a b => by unfold lexQ; exact inferInstance

theorem lexQ_trans {le : β → β → Prop} (h : Transitive le) : Transitive (lexQ le) := by
  rintro a b c (hab | ⟨eab, hab⟩) (hbc | ⟨ebc, hbc⟩)
  · exact Or.inl (lt_trans hab hbc)
  · exact Or.inl (ebc ▸ hab)
  · exact Or.inl (eab ▸ hbc)
  · exact Or.inr ⟨eab.trans ebc, h hab hbc⟩

theorem lexQ_total {le : β → β → Prop} (h : Total le) : Total (lexQ le) := by
  intro a b
  rcases lt_trichotomy a.1 b.1 with hlt | heq | hgt
  · exact Or.inl (Or.inl hlt)
  · rcases h a.2 b.2 with hle | hle
    · exact Or.inl (Or.inr ⟨heq, hle⟩)
    · exact Or.inr (Or.inr ⟨heq.symm, hle⟩)
  · exact Or.inr (Or.inl hgt)

/-- Lexicographic <= on the 4-tuple sort key. -/
def lex4_le : ℚ × ℚ × ℚ × ℚ → ℚ × ℚ × ℚ × ℚ → Prop :=
  lexQ (lexQ (lexQ (· ≤ ·)))

instance : DecidableRel lex4_le := by unfold lex4_le; exact inferInstance

theorem lex4_le_trans : Transitive lex4_le :=
  lexQ_trans (lexQ_trans (lexQ_trans (fun _ _ _ => le_trans)))

theorem lex4_le_total : Total lex4_le :=
  lexQ_total (lexQ_total (lexQ_total (fun a b => le_total a b)))

/-- The ordering used by results.sort(key=..., reverse=True): a comes
before b when the key of a is lexicographically at least the key of b. -/
def surge_order (a b : SurgeResult) : Prop := lex4_le (sort_key b) (sort_key a)

instance : DecidableRel surge_order := fun a b => by unfold surge_order; exact inferInstance

instance : IsTrans SurgeResult surge_order :=
  ⟨fun _ _ _ hab hbc => lex4_le_trans hbc hab⟩

instance : IsTotal SurgeResult surge_order :=
  ⟨fun a b => (lex4_le_total (sort_key a) (sort_key b)).symm⟩

/-- The pure tail of detect_surge_issues_advanced once the per-day maps
are in hand: build the per-issue results, re-filter on the absolute
floor (the second-pass guard of line 368), sort with the stable
descending key order, and truncate to SURGE_MAX_RESULTS. -/
def detect_surge_core (sqrt : ℚ → ℚ) (org : String)
    (today_map : List (String × TodayInfo))
    (prev_maps : List (List (String × ℤ))) : List SurgeResult :=
  let results := today_map.filterMap (fun p => process_issue sqrt org prev_maps p.1 p.2)
  let results := results.filter (fun r => decide (SURGE_ABSOLUTE_MIN ≤ r.event_count))
  (results.insertionSort surge_order).take SURGE_MAX_RESULTS

/-- The candidate list before the sort/truncate step (the results
variable of the source after the loop and the second-pass filter). -/
def surge_candidates (sqrt : ℚ → ℚ) (org : String)
    (today_map : List (String × TodayInfo))
    (prev_maps : List (List (String × ℤ))) : List SurgeResult :=
  (today_map.filterMap (fun p => process_issue sqrt org prev_maps p.1 p.2)).filter
    (fun r => decide (SURGE_ABSOLUTE_MIN ≤ r.event_count))

/-- Sequential fetching of per-day maps: each issue_counts_map_for_day
call either returns a map or raises SystemExit (ensure_ok of lines
71-77), modelled as Except.  The first failure aborts the sequence. -/
def fetch_all : List (Except String β) → Except String (List β)
  | [] => .ok []
  | x :: xs =>
    match x with
    | .error e => .error e
    | .ok b =>
      match fetch_all xs with
      | .error e => .error e
      | .ok bs => .ok (b :: bs)

/-- detect_surge_issues_advanced with the HTTP layer abstracted: the
target-day fetch and the baseline-day fetches are given as Except values
(ok map, or error for an HTTP failure that ensure_ok turns into
SystemExit).  Any failed fetch propagates; otherwise the pure core runs. -/
def detect_surge_issues_advanced (sqrt : ℚ → ℚ) (org : String)
    (fetch_today : Except String (List (String × TodayInfo)))
    (fetch_prev : List (Except String (List (String × ℤ)))) :
    Except String (List SurgeResult) :=
  match fetch_today with
  | .error e => .error e
  | .ok tm =>
    match fetch_all fetch_prev with
    | .error e => .error e
    | .ok pms => .ok (detect_surge_core sqrt org tm pms)

/-- Largest k <= c with k * k <= n (auxiliary for isqrt, structural so
that the kernel can evaluate it on concrete inputs). -/
def isqrt_go (n : ℕ) : ℕ → ℕ
  | 0 => 0
  | k + 1 => if (k + 1) * (k + 1) ≤ n then k + 1 else isqrt_go n k

/-- Integer square root by downward search. -/
def isqrt (n : ℕ) : ℕ := isqrt_go n n

/-- A computable stand-in for math.sqrt used only to evaluate the
embedding at concrete inputs: exact on rationals whose numerator and
denominator are perfect squares (in particular sqrtQ 0 = 0 and
sqrtQ 4 = 2), which covers every concrete input used below. -/
def sqrtQ (q : ℚ) : ℚ := ((isqrt q.num.toNat : ℕ) : ℚ) / ((isqrt q.den : ℕ) : ℚ)

/-! ### weekly_crash_report.py: new-issue part of analyze_issue_lifecycle_improved

Timestamps are modelled as integers (epoch seconds); parsing
datetime.fromisoformat with the surrounding try/except is modelled by an
Option field (none covers a missing firstSeen and an unparsable one, both
of which the source skips).  The astimezone call preserves the instant, so
it is the identity here. -/

/-- One element of this_week_issues as analyze_issue_lifecycle_improved
reads it: id, firstSeen, weekly_event_count. -/
structure WeekIssue where
  id : String
  firstSeen : Option ℤ
  weekly_event_count : ℤ
deriving DecidableEq

/-- One element of the new_issues list built by
analyze_issue_lifecycle_improved: \x7b'issue', 'count', 'first_seen'\x7d. -/
structure NewIssueEntry where
  issue : WeekIssue
  count : ℤ
  first_seen : ℤ
deriving DecidableEq

/-- One step of the dict comprehension \x7bissue['id']: issue ...\x7d: Python
dicts keep the first-insertion position of a key and overwrite its value. -/
def upsert (m : List (String × WeekIssue)) (i : WeekIssue) : List (String × WeekIssue) :=
  if m.any (fun p => p.1 == i.id) then m.map (fun p => if p.1 == i.id then (p.1, i) else p)
  else m ++ [(i.id, i)]

/-- this_week_map as an association list in dict order. -/
def build_id_map (issues : List WeekIssue) : List (String × WeekIssue) :=
  issues.foldl upsert []

/-- The ordering of new_issues.sort(key=lambda x: x['count'], reverse=True). -/
def new_issue_order (a b : NewIssueEntry) : Prop := b.count ≤ a.count

instance : DecidableRel new_issue_order := fun a b => by unfold new_issue_order; exact inferInstance

instance : IsTrans NewIssueEntry new_issue_order :=
  ⟨fun _ _ _ hab hbc => le_trans hbc hab⟩

instance : IsTotal NewIssueEntry new_issue_order :=
  ⟨fun a b => le_total b.count a.count⟩

/-- The new_issues computation of analyze_issue_lifecycle_improved
(weekly_crash_report.py lines 848-881): an issue is collected when its
firstSeen parses and is at least this_week_start and its
weekly_event_count is positive; the result is sorted by count
descending.  Python iterates over the set of ids, whose order is
unspecified; the embedding iterates in dict order, which leaves
membership (the only property at stake) unchanged. -/
def analyze_issue_lifecycle_new_issues (this_week_issues : List WeekIssue)
    (this_week_start : ℤ) : List NewIssueEntry :=
  let m := build_id_map this_week_issues
  let raw := m.filterMap (fun p =>
    match p.2.firstSeen with
    | none => none
    | some fs =>
        if this_week_start ≤ fs then
          if 0 < p.2.weekly_event_count then
            some { issue := p.2, count := p.2.weekly_event_count, first_seen := fs }
          else none
        else none)
  raw.insertionSort new_issue_order

/-! ### release_monitoring/config.py: alert-level ladders -/

/-- One entry of a level-config dict: the key (level), its threshold and
status label.  The action and color fields of the source are further
display strings, not read by any logic modelled here. -/
structure Rung where
  level : ℕ
  threshold : ℤ
  status : String
deriving DecidableEq

/-- CRASH_ALERT_LEVELS (config.py lines 72-79), in dict insertion order. -/
def CRASH_ALERT_LEVELS : List Rung :=
  [⟨1, 20, "주의"⟩, ⟨2, 50, "경고"⟩, ⟨3, 100, "위험"⟩, ⟨4, 200, "심각"⟩, ⟨5, 500, "긴급"⟩]

/-- SINGLE_ISSUE_LEVELS (config.py lines 81-87). -/
def SINGLE_ISSUE_LEVELS : List Rung :=
  [⟨1, 10, "관심"⟩, ⟨2, 25, "주의"⟩, ⟨3, 50, "경고"⟩, ⟨4, 100, "위험"⟩, ⟨5, 200, "긴급"⟩]

/-- FATAL_ALERT_LEVELS (config.py lines 89-95). -/
def FATAL_ALERT_LEVELS : List Rung :=
  [⟨1, 20, "주의"⟩, ⟨2, 50, "경고"⟩, ⟨3, 100, "위험"⟩, ⟨4, 200, "심각"⟩, ⟨5, 300, "긴급"⟩]

/-- USER_IMPACT_LEVELS (config.py lines 98-104). -/
def USER_IMPACT_LEVELS : List Rung :=
  [⟨1, 30, "주의"⟩, ⟨2, 60, "경고"⟩, ⟨3, 100, "위험"⟩, ⟨4, 150, "심각"⟩, ⟨5, 200, "긴급"⟩]

/-- The loop of get_alert_level: walk the entries in dict order; while
value >= threshold record the entry's level, at the first failure break
and return the last recorded level. -/
def get_alert_level_go (value : ℤ) : ℕ → List Rung → ℕ
  | cur, [] => cur
  | cur, r :: rest => if r.threshold ≤ value then get_alert_level_go value r.level rest else cur

/-- get_alert_level (config.py lines 106-117), reduced to the level
number: the source returns the matching config dict, whose 'level' entry
is set to the recorded level and absent (defaulting to 0 at every use
site) when no threshold was reached. -/
def get_alert_level (value : ℤ) (cfg : List Rung) : ℕ :=
  get_alert_level_go value 0 cfg

/-- The level that §4.4 of the spec describes: the highest level among
the rungs whose threshold is <= value, and 0 when value is below every
threshold.  Stated from the spec's words, for comparison with
get_alert_level. -/
def alert_level_spec (value : ℤ) (cfg : List Rung) : ℕ :=
  ((cfg.filter (fun r => decide (r.threshold ≤ value))).map (fun r => r.level)).foldr max 0

/-! ### release_monitoring/release_analyzer.py: analyze_crash_issues_with_levels -/

/-- One issue as analyze_crash_issues_with_levels reads it.  window_count
stands for the result of get_issue_events_in_window(issue_id, start, end)
(an HTTP aggregation, supplied as data here); userCount and count are the
safe_int-coerced fields of the issue JSON. -/
structure RmIssue where
  id : String
  title : String
  level : String
  window_count : ℤ
  userCount : ℤ
  count : ℤ
deriving DecidableEq

/-- One element of the top_issues list (release_analyzer.py lines
476-485); first_seen and last_seen are pass-through display fields, not
modelled. -/
structure RmTopIssue where
  id : String
  title : String
  level : String
  window_count : ℤ
  total_count : ℤ
  users : ℤ
deriving DecidableEq

/-- estimated_window_users = min(user_count, window_events). -/
def estimated_window_users (i : RmIssue) : ℤ := min i.userCount i.window_count

/-- The top_issues entry built for one issue with events in the window. -/
def to_top_issue (i : RmIssue) : RmTopIssue :=
  { id := i.id, title := i.title, level := i.level.toLower,
    window_count := i.window_count, total_count := i.count,
    users := estimated_window_users i }

/-- The strings f"\x7bissue_id\x7d_\x7buser_idx\x7d" added to the
total_affected_users set for one issue. -/
def user_tags (i : RmIssue) : List String :=
  (List.range (estimated_window_users i).toNat).map (fun k => i.id ++ "_" ++ toString k)

/-- The ordering of top_issues.sort(key=lambda x: x['window_count'], reverse=True). -/
def top_issue_order (a b : RmTopIssue) : Prop := b.window_count ≤ a.window_count

instance : DecidableRel top_issue_order := fun a b => by unfold top_issue_order; exact inferInstance

instance : IsTrans RmTopIssue top_issue_order :=
  ⟨fun _ _ _ hab hbc => le_trans hbc hab⟩

instance : IsTotal RmTopIssue top_issue_order :=
  ⟨fun a b => le_total b.window_count a.window_count⟩

/-- max([issue['window_count'] for issue in top_issues], default=0). -/
def max_single_issue_count (tops : List RmTopIssue) : ℤ :=
  match tops.map (fun t => t.window_count) with
  | [] => 0
  | x :: xs => xs.foldl max x

/-- The analysis_result of analyze_crash_issues_with_levels, with the
levels dict flattened to the level numbers that every consumer reads via
.get('level', 0). -/
structure AnalysisResult where
  total_crashes : ℤ
  total_fatal : ℤ
  total_issues : ℕ
  affected_users : ℕ
  top_issues : List RmTopIssue
  overall_level : ℕ
  crash_level : ℕ
  fatal_level : ℕ
  user_level : ℕ
  single_issue_level : ℕ
deriving DecidableEq

/-- analyze_crash_issues_with_levels (release_analyzer.py lines 440-530),
from the point where per-issue window counts are in hand: issues with no
events in the window are skipped; totals, the affected-user estimate and
the top list are accumulated; the four ladders are evaluated and the
overall level is their maximum. -/
def analyze_crash_issues_with_levels (issues : List RmIssue) : AnalysisResult :=
  let considered := issues.filter (fun i => decide (0 < i.window_count))
  let total_crash_events := (considered.map (fun i => i.window_count)).sum
  let total_fatal_events :=
    ((considered.filter (fun i => i.level.toLower == "fatal")).map (fun i => i.window_count)).sum
  let affected_count := ((considered.map user_tags).flatten).dedup.length
  let top_sorted := (considered.map to_top_issue).insertionSort top_issue_order
  let crash_level := get_alert_level total_crash_events CRASH_ALERT_LEVELS
  let fatal_level := get_alert_level total_fatal_events FATAL_ALERT_LEVELS
  let user_level := get_alert_level (affected_count : ℤ) USER_IMPACT_LEVELS
  let single_issue_level := get_alert_level (max_single_issue_count top_sorted) SINGLE_ISSUE_LEVELS
  { total_crashes := total_crash_events,
    total_fatal := total_fatal_events,
    total_issues := (top_sorted.filter (fun t => decide (0 < t.window_count))).length,
    affected_users := affected_count,
    top_issues := top_sorted.take 10,
    overall_level := max (max (max crash_level fatal_level) user_level) single_issue_level,
    crash_level := crash_level,
    fatal_level := fatal_level,
    user_level := user_level,
    single_issue_level := single_issue_level }

/-! ### Helper lemmas about the detector pipeline -/

theorem detect_surge_core_eq (sqrt : ℚ → ℚ) (org : String)
    (tm : List (String × TodayInfo)) (pm : List (List (String × ℤ))) :
    detect_surge_core sqrt org tm pm =
      ((surge_candidates sqrt org tm pm).insertionSort surge_order).take SURGE_MAX_RESULTS := rfl

theorem surge_result_of_issue_id (sqrt : ℚ → ℚ) (org : String)
    (pm : List (List (String × ℤ))) (iid : String) (info : TodayInfo) :
    (surge_result_of sqrt org pm iid info).issue_id = iid := rfl

theorem surge_result_of_event_count (sqrt : ℚ → ℚ) (org : String)
    (pm : List (List (String × ℤ))) (iid : String) (info : TodayInfo) :
    (surge_result_of sqrt org pm iid info).event_count = info.count := rfl

theorem surge_result_of_reasons (sqrt : ℚ → ℚ) (org : String)
    (pm : List (List (String × ℤ))) (iid : String) (info : TodayInfo) :
    (surge_result_of sqrt org pm iid info).reasons =
      ((surge_conditions (issue_stats sqrt pm iid info.count)).filter
        (fun c => c.2)).map (fun c => c.1) := rfl

theorem process_issue_inv {sqrt : ℚ → ℚ} {org : String}
    {pm : List (List (String × ℤ))} {iid : String} {info : TodayInfo} {r : SurgeResult}
    (h : process_issue sqrt org pm iid info = some r) :
    SURGE_ABSOLUTE_MIN ≤ info.count ∧
    (surge_conditions (issue_stats sqrt pm iid info.count)).any (fun c => c.2) = true ∧
    r = surge_result_of sqrt org pm iid info := by
  unfold process_issue at h
  split at h
  · exact Option.noConfusion h
  · next h1 =>
    split at h
    · next h2 => exact ⟨not_lt.mp h1, h2, (Option.some.inj h).symm⟩
    · exact Option.noConfusion h

theorem process_issue_some (sqrt : ℚ → ℚ) (org : String)
    (pm : List (List (String × ℤ))) (iid : String) (info : TodayInfo)
    (hge : SURGE_ABSOLUTE_MIN ≤ info.count)
    (hany : (surge_conditions (issue_stats sqrt pm iid info.count)).any (fun c => c.2) = true) :
    process_issue sqrt org pm iid info = some (surge_result_of sqrt org pm iid info) := by
  unfold process_issue
  rw [if_neg (not_lt.mpr hge), if_pos hany]

theorem assoc_nodup_eq {α β : Type} {l : List (α × β)}
    (hnd : (l.map Prod.fst).Nodup) {a : α} {b c : β}
    (h1 : (a, b) ∈ l) (h2 : (a, c) ∈ l) : b = c := by
  induction l with
  | nil => cases h1
  | cons x xs ih =>
    rw [List.map_cons, List.nodup_cons] at hnd
    rcases List.mem_cons.mp h1 with e1 | m1 <;> rcases List.mem_cons.mp h2 with e2 | m2
    · rw [← e1] at e2
      exact ((Prod.ext_iff.mp e2).2).symm
    · exact absurd (List.mem_map.mpr ⟨(a, c), m2, by rw [← e1]⟩) hnd.1
    · exact absurd (List.mem_map.mpr ⟨(a, b), m1, by rw [← e2]⟩) hnd.1
    · exact ih hnd.2 m1 m2

theorem mem_of_mem_detect {sqrt : ℚ → ℚ} {org : String}
    {tm : List (String × TodayInfo)} {pm : List (List (String × ℤ))} {r : SurgeResult}
    (h : r ∈ detect_surge_core sqrt org tm pm) :
    r ∈ surge_candidates sqrt org tm pm := by
  rw [detect_surge_core_eq] at h
  exact (List.perm_insertionSort surge_order _).subset (List.mem_of_mem_take h)

theorem mem_detect_iff {sqrt : ℚ → ℚ} {org : String}
    {tm : List (String × TodayInfo)} {pm : List (List (String × ℤ))}
    (hlen : (surge_candidates sqrt org tm pm).length ≤ SURGE_MAX_RESULTS) (r : SurgeResult) :
    r ∈ detect_surge_core sqrt org tm pm ↔ r ∈ surge_candidates sqrt org tm pm := by
  have h1 : ((surge_candidates sqrt org tm pm).insertionSort surge_order).length
      ≤ SURGE_MAX_RESULTS := by
    rwa [(List.perm_insertionSort surge_order _).length_eq]
  rw [detect_surge_core_eq, List.take_of_length_le h1,
    (List.perm_insertionSort surge_order _).mem_iff]

theorem mem_surge_candidates {sqrt : ℚ → ℚ} {org : String}
    {tm : List (String × TodayInfo)} {pm : List (List (String × ℤ))} {r : SurgeResult} :
    r ∈ surge_candidates sqrt org tm pm ↔
      (∃ p, p ∈ tm ∧ process_issue sqrt org pm p.1 p.2 = some r) ∧
        SURGE_ABSOLUTE_MIN ≤ r.event_count := by
  simp [surge_candidates, List.mem_filter, List.mem_filterMap]

theorem any_surge_conditions (st : IssueStats) :
    (surge_conditions st).any (fun c => c.2) =
      (growth_cond st || zscore_cond st || madscore_cond st || new_burst_cond st) := by
  simp [surge_conditions, Bool.or_assoc]

/-! ### Claims C1, C9, C2 -/

/-- Claim C1: for every issue in the current window whose event count is
below the absolute floor SURGE_ABSOLUTE_MIN (= 30), the returned surge
list of detect_surge_issues_advanced never contains that issue, for every
square-root function, organization, today map (with dict-unique keys) and
baseline maps — regardless of how growth ratio, z-score, MAD score or
new_burst evaluate. -/
theorem c1_absolute_floor_excludes (sqrt : ℚ → ℚ) (org : String)
    (tm : List (String × TodayInfo)) (pm : List (List (String × ℤ)))
    (iid : String) (info : TodayInfo)
    (hnd : (tm.map Prod.fst).Nodup) (hmem : (iid, info) ∈ tm)
    (hlt : info.count < SURGE_ABSOLUTE_MIN) :
    ∀ r ∈ detect_surge_core sqrt org tm pm, r.issue_id ≠ iid := by
  intro r hr heq
  obtain ⟨⟨p, hp, hsome⟩, _⟩ := mem_surge_candidates.mp (mem_of_mem_detect hr)
  obtain ⟨hge, _, hreq⟩ := process_issue_inv hsome
  have hid : r.issue_id = p.1 := by rw [hreq]; rfl
  have hp1 : p.1 = iid := by rw [← hid, heq]
  have hppair : (iid, p.2) ∈ tm := by rw [← hp1]; simpa using hp
  have hinfo : p.2 = info := assoc_nodup_eq hnd hppair hmem
  rw [hinfo] at hge
  exact absurd hge (not_le.mpr hlt)

/-- Witness for C1 at the spec's scenario 2: an issue with 20 events and an
all-zero baseline (20 < 30) never appears in the output. -/
theorem c1_witness :
    (detect_surge_core sqrtQ "o" [("b", ⟨20, "t"⟩)] (List.replicate 7 [])).all
      (fun r => r.issue_id != "b") = true := by
  have h := c1_absolute_floor_excludes sqrtQ "o" [("b", ⟨20, "t"⟩)] (List.replicate 7 [])
    "b" ⟨20, "t"⟩ (by decide) (by decide) (by decide)
  refine List.all_eq_true.mpr (fun r hr => ?_)
  simpa [bne_iff_ne] using h r hr

/-- Claim C9: detect_surge_issues_advanced returns at most
SURGE_MAX_RESULTS (= 50) results on every input; anything ranked below the
top 50 after sorting is dropped by the final truncation. -/
theorem c9_at_most_max_results (sqrt : ℚ → ℚ) (org : String)
    (tm : List (String × TodayInfo)) (pm : List (List (String × ℤ))) :
    (detect_surge_core sqrt org tm pm).length ≤ SURGE_MAX_RESULTS := by
  rw [detect_surge_core_eq, List.length_take]
  exact min_le_left _ _

/-- Claim C2 (amended): for an issue at or above the absolute floor, as
long as at most SURGE_MAX_RESULTS candidates survive (the truncation of
C9 is the one exception to the if-and-only-if), the issue appears in the
returned surge list exactly when one of the four sub-rules (growth,
zscore, madscore, new_burst) holds — a logical OR — and every returned
result for it carries as reasons exactly the sub-rules that held. -/
theorem c2_spike_iff_or (sqrt : ℚ → ℚ) (org : String)
    (tm : List (String × TodayInfo)) (pm : List (List (String × ℤ)))
    (iid : String) (info : TodayInfo)
    (hnd : (tm.map Prod.fst).Nodup) (hmem : (iid, info) ∈ tm)
    (hge : SURGE_ABSOLUTE_MIN ≤ info.count)
    (hlen : (surge_candidates sqrt org tm pm).length ≤ SURGE_MAX_RESULTS) :
    ((∃ r ∈ detect_surge_core sqrt org tm pm, r.issue_id = iid) ↔
      (growth_cond (issue_stats sqrt pm iid info.count)
        || zscore_cond (issue_stats sqrt pm iid info.count)
        || madscore_cond (issue_stats sqrt pm iid info.count)
        || new_burst_cond (issue_stats sqrt pm iid info.count)) = true)
    ∧ ∀ r ∈ detect_surge_core sqrt org tm pm, r.issue_id = iid →
        r.reasons = ((surge_conditions (issue_stats sqrt pm iid info.count)).filter
          (fun c => c.2)).map (fun c => c.1) := by
  constructor
  · constructor
    · rintro ⟨r, hr, hid⟩
      obtain ⟨⟨p, hp, hsome⟩, _⟩ := mem_surge_candidates.mp (mem_of_mem_detect hr)
      obtain ⟨_, hany, hreq⟩ := process_issue_inv hsome
      have hp1 : p.1 = iid := by rw [← hid, hreq]; rfl
      have hppair : (iid, p.2) ∈ tm := by rw [← hp1]; simpa using hp
      have hinfo : p.2 = info := assoc_nodup_eq hnd hppair hmem
      rw [hp1, hinfo] at hany
      rwa [any_surge_conditions] at hany
    · intro hor
      have hany : (surge_conditions (issue_stats sqrt pm iid info.count)).any
          (fun c => c.2) = true := by rwa [any_surge_conditions]
      refine ⟨surge_result_of sqrt org pm iid info, ?_,
        surge_result_of_issue_id sqrt org pm iid info⟩
      rw [mem_detect_iff hlen]
      refine mem_surge_candidates.mpr ⟨⟨(iid, info), hmem, ?_⟩, ?_⟩
      · exact process_issue_some sqrt org pm iid info hge hany
      · rw [surge_result_of_event_count]; exact hge
  · intro r hr hid
    obtain ⟨⟨p, hp, hsome⟩, _⟩ := mem_surge_candidates.mp (mem_of_mem_detect hr)
    obtain ⟨_, _, hreq⟩ := process_issue_inv hsome
    have hp1 : p.1 = iid := by rw [← hid, hreq]; rfl
    have hppair : (iid, p.2) ∈ tm := by rw [← hp1]; simpa using hp
    have hinfo : p.2 = info := assoc_nodup_eq hnd hppair hmem
    rw [hreq, surge_result_of_reasons, hp1, hinfo]

/-- Counterexample for C2 as stated: with 51 qualifying issues (here
counts 81 down to 31, empty baseline, so new_burst and the infinite
z-score and MAD-score hold for all of them), the 51st-ranked issue i50
satisfies the sub-rules and the absolute floor, yet does not appear in
the returned surge list: the iff fails because of the top-50 truncation. -/
theorem c2_counterexample :
    ((growth_cond (issue_stats sqrtQ [] "i50" 31)
        || zscore_cond (issue_stats sqrtQ [] "i50" 31)
        || madscore_cond (issue_stats sqrtQ [] "i50" 31)
        || new_burst_cond (issue_stats sqrtQ [] "i50" 31)) = true)
    ∧ SURGE_ABSOLUTE_MIN ≤ (31 : ℤ)
    ∧ ((detect_surge_core sqrtQ "o"
          ((List.range 51).map (fun i => ("i" ++ toString i, (⟨81 - (i : ℤ), ""⟩ : TodayInfo))))
          []).all (fun r => r.issue_id != "i50") = true) := by
  exact ⟨by decide, by decide, by decide⟩

/-- Witness for C2 at the spec's scenario 1 (40 events against a
day-before count of 10): the issue is in the surge list, and its reasons
are exactly the triggered sub-rules (growth, plus the infinite z- and
MAD-scores of a constant baseline). -/
theorem c2_witness :
    ((detect_surge_core sqrtQ "o" [("a", ⟨40, "t"⟩)] [[("a", 10)]]).any
        (fun r => r.issue_id == "a") = true)
    ∧ ((detect_surge_core sqrtQ "o" [("a", ⟨40, "t"⟩)] [[("a", 10)]]).all
        (fun r => !(r.issue_id == "a") || (r.reasons == ["growth", "zscore", "madscore"])) = true) := by
  have h := c2_spike_iff_or sqrtQ "o" [("a", ⟨40, "t"⟩)] [[("a", 10)]] "a" ⟨40, "t"⟩
    (by decide) (by decide) (by decide) (by decide)
  constructor
  · obtain ⟨r, hr, hid⟩ := h.1.mpr (by decide)
    exact List.any_eq_true.mpr ⟨r, hr, by simp [hid]⟩
  · refine List.all_eq_true.mpr (fun r hr => ?_)
    by_cases hid : r.issue_id = "a"
    · have hre := h.2 r hr hid
      have hrw : r.reasons = ["growth", "zscore", "madscore"] := by rw [hre]; decide
      simp [hrw]
    · simp [hid]

/-! ### Claim C3 -/

/-- Claim C3: when the baseline standard deviation is zero, the zscore
sub-rule is triggered exactly when the event count strictly exceeds the
baseline mean (and the MAD rule behaves the same way for a zero MAD);
when the deviation is positive the computation divides by std + eps,
which is nonzero — the zero-denominator case is an explicit branch, so no
division-by-zero error can occur for any input. -/
theorem c3_zero_std_policy (st : IssueStats) :
    (st.std_val = 0 → zscore_cond st = decide (st.mean_val < (st.cur : ℚ)))
    ∧ (st.mad_val = 0 → madscore_cond st = decide (st.med_val < (st.cur : ℚ)))
    ∧ (0 < st.std_val →
        compute_z st.cur st.mean_val st.std_val =
            .fin (((st.cur : ℚ) - st.mean_val) / (st.std_val + eps))
          ∧ st.std_val + eps ≠ 0)
    ∧ (0 < st.mad_val →
        compute_mad_score st.cur st.med_val st.mad_val =
            .fin (((st.cur : ℚ) - st.med_val) / (1.4826 * st.mad_val + eps))
          ∧ 1.4826 * st.mad_val + eps ≠ 0) := by
  have heps : (0 : ℚ) < eps := by norm_num [eps]
  refine ⟨?_, ?_, ?_, ?_⟩
  · intro hs
    unfold zscore_cond
    rw [hs]
    by_cases h : st.mean_val < (st.cur : ℚ)
    · simp [compute_z, lt_self_iff_false, h, PyFloat.geQ]
    · simp only [compute_z, lt_self_iff_false, if_false, h, PyFloat.geQ]
      simp [h, SURGE_Z_THRESHOLD]
  · intro hmd
    unfold madscore_cond
    rw [hmd]
    by_cases h : st.med_val < (st.cur : ℚ)
    · simp [compute_mad_score, lt_self_iff_false, h, PyFloat.geQ]
    · simp only [compute_mad_score, lt_self_iff_false, if_false, h, PyFloat.geQ]
      simp [h, SURGE_MAD_THRESHOLD]
      norm_num
  · intro hs2
    refine ⟨by unfold compute_z; rw [if_pos hs2], ne_of_gt (by linarith)⟩
  · intro hm2
    have hp : (0 : ℚ) < 1.4826 * st.mad_val := by positivity
    refine ⟨by unfold compute_mad_score; rw [if_pos hm2], ne_of_gt (by linarith)⟩

/-- Witness for C3: the statistics of an issue with 40 events over the
constant baseline [10] have std = 0 and MAD = 0, and both rules are
triggered since 40 exceeds the mean and the median. -/
theorem c3_witness :
    (zscore_cond (issue_stats sqrtQ [[("a", 10)]] "a" 40)
        = decide ((issue_stats sqrtQ [[("a", 10)]] "a" 40).mean_val
            < ((issue_stats sqrtQ [[("a", 10)]] "a" 40).cur : ℚ)))
    ∧ (madscore_cond (issue_stats sqrtQ [[("a", 10)]] "a" 40)
        = decide ((issue_stats sqrtQ [[("a", 10)]] "a" 40).med_val
            < ((issue_stats sqrtQ [[("a", 10)]] "a" 40).cur : ℚ))) := by
  have h := c3_zero_std_policy (issue_stats sqrtQ [[("a", 10)]] "a" 40)
  exact ⟨h.1 (by decide), h.2.1 (by decide)⟩

/-! ### Claim C4 -/

theorem max4_mem (a b c d : ℕ) : max (max (max a b) c) d ∈ [a, b, c, d] := by
  rcases max_choice (max (max a b) c) d with h3 | h3
  · rw [h3]
    rcases max_choice (max a b) c with h2 | h2
    · rw [h2]
      rcases max_choice a b with h1 | h1 <;> rw [h1] <;> simp
    · rw [h2]; simp
  · rw [h3]; simp

/-- Claim C4: the overall alert level of analyze_crash_issues_with_levels
equals the maximum of the four per-dimension levels (crash volume, fatal
volume, user impact, single-issue volume), and in particular is always
one of them — never an independent fifth value, never an average or a
product of dimensions. -/
theorem c4_overall_is_max (issues : List RmIssue) :
    ((analyze_crash_issues_with_levels issues).overall_level =
      max (max (max (analyze_crash_issues_with_levels issues).crash_level
            (analyze_crash_issues_with_levels issues).fatal_level)
          (analyze_crash_issues_with_levels issues).user_level)
        (analyze_crash_issues_with_levels issues).single_issue_level)
    ∧ (analyze_crash_issues_with_levels issues).overall_level ∈
        [(analyze_crash_issues_with_levels issues).crash_level,
         (analyze_crash_issues_with_levels issues).fatal_level,
         (analyze_crash_issues_with_levels issues).user_level,
         (analyze_crash_issues_with_levels issues).single_issue_level] := by
  have h : (analyze_crash_issues_with_levels issues).overall_level =
      max (max (max (analyze_crash_issues_with_levels issues).crash_level
            (analyze_crash_issues_with_levels issues).fatal_level)
          (analyze_crash_issues_with_levels issues).user_level)
        (analyze_crash_issues_with_levels issues).single_issue_level := rfl
  refine ⟨h, ?_⟩
  rw [h]
  exact max4_mem _ _ _ _

/-! ### Claims C5 and C10 -/

theorem foldr_max_shift {L : List ℕ} {a cur : ℕ} (h : cur ≤ a) :
    L.foldr max a = max a (L.foldr max cur) := by
  induction L with
  | nil => simpa using (max_eq_left h).symm
  | cons x xs ih => simp only [List.foldr_cons]; rw [ih, max_left_comm]

theorem filter_thr_nil {value : ℤ} {r : Rung} {rest : List Rung}
    (hthr : ∀ r2 ∈ rest, r.threshold ≤ r2.threshold) (hv : value < r.threshold) :
    rest.filter (fun r2 => decide (r2.threshold ≤ value)) = [] := by
  rw [List.filter_eq_nil_iff]
  intro a ha h
  have h1 := hthr a ha
  have h2 : a.threshold ≤ value := of_decide_eq_true h
  linarith

theorem get_alert_level_go_eq (value : ℤ) (cfg : List Rung)
    (hthr : cfg.Pairwise (fun a b => a.threshold ≤ b.threshold))
    (hlvl : cfg.Pairwise (fun a b => a.level ≤ b.level)) :
    ∀ cur : ℕ, (∀ r ∈ cfg, cur ≤ r.level) →
      get_alert_level_go value cur cfg =
        ((cfg.filter (fun r => decide (r.threshold ≤ value))).map (fun r => r.level)).foldr
          max cur := by
  induction cfg with
  | nil => intro cur _; simp [get_alert_level_go]
  | cons r rest ih =>
    intro cur hcur
    rw [List.pairwise_cons] at hthr hlvl
    by_cases h : r.threshold ≤ value
    · rw [get_alert_level_go, if_pos h, List.filter_cons_of_pos (by simpa using h),
        List.map_cons, List.foldr_cons]
      rw [ih hthr.2 hlvl.2 r.level hlvl.1]
      exact foldr_max_shift (hcur r (List.mem_cons_self r rest))
    · rw [get_alert_level_go, if_neg h, List.filter_cons_of_neg (by simpa using h),
        filter_thr_nil hthr.1 (not_le.mp h)]
      simp

theorem get_alert_level_eq_spec (value : ℤ) (cfg : List Rung)
    (hthr : cfg.Pairwise (fun a b => a.threshold ≤ b.threshold))
    (hlvl : cfg.Pairwise (fun a b => a.level ≤ b.level)) :
    get_alert_level value cfg = alert_level_spec value cfg := by
  unfold get_alert_level alert_level_spec
  exact get_alert_level_go_eq value cfg hthr hlvl 0 (fun r _ => Nat.zero_le _)

/-- Counterexample for C5 as stated: a ladder whose thresholds ascend but
whose levels descend.  get_alert_level walks the entries and returns the
level of the last rung whose threshold was reached — here 1 — while the
highest level whose threshold is <= 25 is 5; so threshold ascension alone
does not make get_alert_level return the highest qualifying level. -/
theorem c5_counterexample :
    ([(⟨5, 10, "x"⟩ : Rung), ⟨1, 20, "y"⟩].Pairwise (fun a b => a.threshold ≤ b.threshold))
    ∧ get_alert_level 25 [⟨5, 10, "x"⟩, ⟨1, 20, "y"⟩] = 1
    ∧ alert_level_spec 25 [⟨5, 10, "x"⟩, ⟨1, 20, "y"⟩] = 5 := ⟨by decide, by decide, by decide⟩

/-- Claim C5 (amended): for every ladder whose thresholds AND levels both
ascend (as in every ladder the source defines, where the dict is keyed by
ascending level) and every non-negative value, get_alert_level returns
the highest level among the rungs whose threshold is <= value, and 0
when value is below every threshold; alert_level_spec states that reading
of §4.4 in the spec's words. -/
theorem c5_get_alert_level_spec (value : ℤ) (cfg : List Rung) (_hv : 0 ≤ value)
    (hthr : cfg.Pairwise (fun a b => a.threshold ≤ b.threshold))
    (hlvl : cfg.Pairwise (fun a b => a.level ≤ b.level)) :
    get_alert_level value cfg = alert_level_spec value cfg :=
  get_alert_level_eq_spec value cfg hthr hlvl

/-- Witness for C5 at the spec's scenario 4: the crash-volume example
ladder at value 75 yields level 2 ("warning"), not 3. -/
theorem c5_witness :
    (get_alert_level 75 [⟨1, 20, "attention"⟩, ⟨2, 50, "warning"⟩, ⟨3, 100, "danger"⟩]
        = alert_level_spec 75 [⟨1, 20, "attention"⟩, ⟨2, 50, "warning"⟩, ⟨3, 100, "danger"⟩])
    ∧ get_alert_level 75 [⟨1, 20, "attention"⟩, ⟨2, 50, "warning"⟩, ⟨3, 100, "danger"⟩] = 2 :=
  ⟨c5_get_alert_level_spec 75 _ (by decide) (by decide) (by decide), by decide⟩

theorem le_foldr_max {x : ℕ} {L : List ℕ} (h : x ∈ L) : x ≤ L.foldr max 0 := by
  induction L with
  | nil => cases h
  | cons y ys ih =>
    rcases List.mem_cons.mp h with rfl | h2
    · simp only [List.foldr_cons]; exact le_max_left _ _
    · simp only [List.foldr_cons]; exact le_trans (ih h2) (le_max_right _ _)

theorem foldr_max_mono {L1 L2 : List ℕ} (h : ∀ x ∈ L1, x ∈ L2) :
    L1.foldr max 0 ≤ L2.foldr max 0 := by
  induction L1 with
  | nil => simp
  | cons y ys ih =>
    simp only [List.foldr_cons]
    exact max_le (le_foldr_max (h y (List.mem_cons_self y ys)))
      (ih (fun x hx => h x (List.mem_cons.mpr (Or.inr hx))))

theorem alert_level_spec_mono {v1 v2 : ℤ} (h : v1 ≤ v2) (cfg : List Rung) :
    alert_level_spec v1 cfg ≤ alert_level_spec v2 cfg := by
  unfold alert_level_spec
  apply foldr_max_mono
  intro x hx
  obtain ⟨r, hr, rfl⟩ := List.mem_map.mp hx
  obtain ⟨hrc, hrt⟩ := List.mem_filter.mp hr
  refine List.mem_map.mpr ⟨r, List.mem_filter.mpr ⟨hrc, ?_⟩, rfl⟩
  have h2 : r.threshold ≤ v1 := of_decide_eq_true hrt
  exact decide_eq_true (by linarith)

/-- Claim C10: on each of the four fixed ladders of
release_monitoring/config.py, get_alert_level is monotone in its value. -/
theorem c10_get_alert_level_monotone (v1 v2 : ℤ) (h : v1 ≤ v2) :
    get_alert_level v1 CRASH_ALERT_LEVELS ≤ get_alert_level v2 CRASH_ALERT_LEVELS
    ∧ get_alert_level v1 SINGLE_ISSUE_LEVELS ≤ get_alert_level v2 SINGLE_ISSUE_LEVELS
    ∧ get_alert_level v1 FATAL_ALERT_LEVELS ≤ get_alert_level v2 FATAL_ALERT_LEVELS
    ∧ get_alert_level v1 USER_IMPACT_LEVELS ≤ get_alert_level v2 USER_IMPACT_LEVELS := by
  refine ⟨?_, ?_, ?_, ?_⟩ <;>
  · rw [get_alert_level_eq_spec _ _ (by decide) (by decide),
      get_alert_level_eq_spec _ _ (by decide) (by decide)]
    exact alert_level_spec_mono h _

/-- Witness for C10 at values 30 <= 120. -/
theorem c10_witness :
    get_alert_level 30 CRASH_ALERT_LEVELS ≤ get_alert_level 120 CRASH_ALERT_LEVELS
    ∧ get_alert_level 30 SINGLE_ISSUE_LEVELS ≤ get_alert_level 120 SINGLE_ISSUE_LEVELS
    ∧ get_alert_level 30 FATAL_ALERT_LEVELS ≤ get_alert_level 120 FATAL_ALERT_LEVELS
    ∧ get_alert_level 30 USER_IMPACT_LEVELS ≤ get_alert_level 120 USER_IMPACT_LEVELS :=
  c10_get_alert_level_monotone 30 120 (by decide)

/-! ### Claim C6 -/

/-- Counterexample for C6 as stated: the weekly classifier checks only the
lower window boundary.  With the week starting at 0, an issue whose
first_seen (10^9) lies far beyond the week's end (0 + 7 * 86400 in epoch
seconds) is still reported as new, so "first_seen within
[period_start, period_end)" is not what the code enforces. -/
theorem c6_counterexample :
    ((analyze_issue_lifecycle_new_issues [⟨"X", some 1000000000, 3⟩] 0).map
        (fun en => en.issue.id) = ["X"])
    ∧ ((0 : ℤ) + 7 * 86400 ≤ 1000000000) := ⟨by decide, by decide⟩

/-- Claim C6 (amended): the weekly classifier flags an issue as new only
if its first_seen parses, is at least the window start (the lower bound
is a hard check), and the issue had events this week; no upper boundary
is checked client-side — first occurrences at or after the window end are
excluded only by the fetch window, not by this function. -/
theorem c6_new_only_if_lower_bound (issues : List WeekIssue) (start : ℤ)
    (e : NewIssueEntry) (he : e ∈ analyze_issue_lifecycle_new_issues issues start) :
    e.issue.firstSeen = some e.first_seen ∧ start ≤ e.first_seen ∧ 0 < e.count := by
  have he2 : e ∈ (build_id_map issues).filterMap
      (fun p => match p.2.firstSeen with
        | none => none
        | some fs =>
            if start ≤ fs then
              if 0 < p.2.weekly_event_count then
                some { issue := p.2, count := p.2.weekly_event_count, first_seen := fs }
              else none
            else none) :=
    (List.perm_insertionSort new_issue_order _).subset he
  obtain ⟨p, hp, hpe⟩ := List.mem_filterMap.mp he2
  split at hpe
  · exact Option.noConfusion hpe
  · next fs hfs =>
    split at hpe
    · next h1 =>
      split at hpe
      · next h2 =>
        obtain rfl := Option.some.inj hpe
        exact ⟨hfs, h1, h2⟩
      · exact Option.noConfusion hpe
    · exact Option.noConfusion hpe

/-- Witness for C6 (amended): one issue first seen at 5 with 2 weekly
events in a week starting at 0 is classified new, with the lower bound
and the positive count holding. -/
theorem c6_witness :
    (⟨⟨"X", some 5, 2⟩, 2, 5⟩ : NewIssueEntry).issue.firstSeen = some 5
    ∧ (0 : ℤ) ≤ (⟨⟨"X", some 5, 2⟩, 2, 5⟩ : NewIssueEntry).first_seen
    ∧ 0 < (⟨⟨"X", some 5, 2⟩, 2, 5⟩ : NewIssueEntry).count :=
  c6_new_only_if_lower_bound [⟨"X", some 5, 2⟩] 0 ⟨⟨"X", some 5, 2⟩, 2, 5⟩ (by decide)

/-! ### Claim C7 -/

/-- Counterexample for C7 as stated: two issues with the same event count
40; the one with the larger issue id ("a2", with the larger growth
multiplier) is returned first, so ties are not broken by issue_id
ascending and the order is not a function of (event_count, issue_id). -/
theorem c7_counterexample :
    ((detect_surge_core sqrtQ "o" [("a1", ⟨40, "A"⟩), ("a2", ⟨40, "B"⟩)]
        (List.replicate 7 [("a1", (10 : ℤ)), ("a2", 5)])).map
      (fun r => r.issue_id) = ["a2", "a1"])
    ∧ ((detect_surge_core sqrtQ "o" [("a1", ⟨40, "A"⟩), ("a2", ⟨40, "B"⟩)]
        (List.replicate 7 [("a1", (10 : ℤ)), ("a2", 5)])).map
      (fun r => r.event_count) = [40, 40]) := ⟨by decide, by decide⟩

/-- Claim C7 (amended): the returned surge list is sorted non-increasingly
by the lexicographic key (event_count, zscore or 0, mad_score or 0,
growth_multiplier) — surge_order; issue_id is not a tiebreaker, and ties
on the whole key keep candidate insertion order because Python's sort is
stable. -/
theorem c7_sorted_by_key (sqrt : ℚ → ℚ) (org : String)
    (tm : List (String × TodayInfo)) (pm : List (List (String × ℤ))) :
    List.Pairwise surge_order (detect_surge_core sqrt org tm pm) := by
  rw [detect_surge_core_eq]
  have hs : List.Pairwise surge_order
      ((surge_candidates sqrt org tm pm).insertionSort surge_order) :=
    List.sorted_insertionSort surge_order _
  exact List.Pairwise.sublist (List.take_sublist _ _) hs

/-! ### Claim C8 -/

theorem fetch_all_error {β : Type} {l : List (Except String β)} {e : String}
    (he : Except.error e ∈ l) : ∃ e2, fetch_all l = Except.error e2 := by
  induction l with
  | nil => cases he
  | cons x xs ih =>
    rcases List.mem_cons.mp he with rfl | h2
    · exact ⟨e, rfl⟩
    · cases x with
      | error e0 => exact ⟨e0, rfl⟩
      | ok b =>
        obtain ⟨e2, h3⟩ := ih h2
        exact ⟨e2, by simp [fetch_all, h3]⟩

/-- Counterexample for C8 as stated: the current-window fetch succeeds but
the first baseline-day fetch fails; ensure_ok raises SystemExit, so the
whole run aborts with that error instead of zero-filling the period and
continuing. -/
theorem c8_counterexample :
    detect_surge_issues_advanced sqrtQ "o" (Except.ok [("a", ⟨40, "t"⟩)])
      [Except.error "HTTP 500", Except.ok [("a", 10)]] = Except.error "HTTP 500" := rfl

/-- Claim C8 (amended): a failing baseline-period fetch is fatal — the
run propagates the SystemExit of ensure_ok instead of degrading the
period to zeros; what is zero-filled is only an issue absent from a
successfully fetched period's map, whose count defaults to 0. -/
theorem c8_baseline_failure_fatal (sqrt : ℚ → ℚ) (org : String)
    (tm : List (String × TodayInfo))
    (prevs : List (Except String (List (String × ℤ)))) (e : String)
    (he : Except.error e ∈ prevs) :
    (∃ e2, detect_surge_issues_advanced sqrt org (Except.ok tm) prevs = Except.error e2)
    ∧ ∀ (pm2 : List (String × ℤ)) (iid : String),
        iid ∉ pm2.map Prod.fst → lookup_count pm2 iid = 0 := by
  constructor
  · obtain ⟨e2, h2⟩ := fetch_all_error he
    exact ⟨e2, by unfold detect_surge_issues_advanced; rw [h2]⟩
  · intro pm2 iid hnm
    have hf : pm2.find? (fun p => p.1 == iid) = none :=
      List.find?_eq_none.mpr
        (fun p hp hbeq => hnm (List.mem_map.mpr ⟨p, hp, by simpa using hbeq⟩))
    unfold lookup_count
    rw [hf]
    rfl

/-- Witness for C8 (amended): with the single baseline fetch failing, the
run is not ok, and an absent issue in a fetched map counts as zero. -/
theorem c8_witness :
    lookup_count [("b", 3)] "a" = 0
    ∧ (detect_surge_issues_advanced sqrtQ "o" (Except.ok [("a", ⟨40, "t"⟩)])
        [Except.error "boom"]).isOk = false := by
  have h := c8_baseline_failure_fatal sqrtQ "o" [("a", ⟨40, "t"⟩)] [Except.error "boom"]
    "boom" (List.mem_singleton.mpr rfl)
  refine ⟨h.2 [("b", 3)] "a" (by decide), ?_⟩
  obtain ⟨e2, he2⟩ := h.1
  rw [he2]
  rfl

end SentryReport
